import Mathlib

/-!
Shallow embedding of the `Scheduler` class from `src/features/scheduler.js` of
the gravi-agent repository.

Timestamps are epoch milliseconds, modelled as `Int` (`Date.now()` returns an
integer number of milliseconds; the JS float divisions `(now - t) / 1000`
compared against the integer thresholds `10` and `silenceTimeout` are exactly
equivalent to the integer comparisons `now - t < 10000` and
`1000 * silenceTimeout <= now - t` used here, since no integer millisecond
count lands within a float ulp of the thresholds).

Asynchrony is made explicit: `_executeCurrentItem` runs synchronously up to
`await this.cdpHandler.sendPrompt(prompt)`; the part after the `await` is the
send continuation, which closes over `retryCount` only.  The state therefore
carries the multiset of in-flight send continuations (`inFlight`, each entry
the captured `retryCount`) and the set of scheduled one-off retry timers
(`pendingRetries`, each entry its fire-at time and the `retryCount` argument).
`setInterval` for the silence check is modelled by the flag `checkTimerOn`
(whether `this.checkTimer` currently holds a handle) together with the count
`activeCheckTimers` of interval timers that are actually live, so that a
hypothetical handle leak would be observable.  `sends`, `completionCount` and
`warningCount` are ghost observers recording each initiated `sendPrompt` call,
each completion notification (`showInformationMessage` in `_onQueueComplete`)
and each warning (`showWarningMessage` in `startQueue`); no scheduler decision
reads them.
-/

/-- Configuration snapshot as read by `Scheduler.loadConfig` from the
`gravi-agent` workspace configuration (scheduler.js lines 33-44). -/
structure SchedulerConfig where
  enabled : Bool
  mode : String
  prompts : List String
  silenceTimeout : Nat
  intervalMinutes : Nat
  intervalPrompt : String
deriving DecidableEq

/-- Result of `cdpHandler.getStats()` as consumed by `_checkSilence`:
`{ lastActivity: epoch-ms|0, lastDomChange: epoch-ms|0 }`. -/
structure ActivitySample where
  lastActivity : Int
  lastDomChange : Int
deriving DecidableEq

/-- Ghost record of one initiated `cdpHandler.sendPrompt` call: the queue index
and prompt that were current when `_executeCurrentItem` reached the send, the
`retryCount` argument of that invocation, and the send time. -/
structure SendRecord where
  idx : Nat
  prompt : String
  retryCount : Nat
  sentAt : Int
deriving DecidableEq

/-- The mutable state of a `Scheduler` instance, plus the explicit pending
continuations and ghost observers described in the file header. -/
structure SchedulerState where
  isRunning : Bool
  isPaused : Bool
  queueIndex : Nat
  runtimeQueue : List String
  lastActivityTime : Option Int
  currentItemSentAt : Option Int
  checkTimerOn : Bool
  activeCheckTimers : Nat
  config : SchedulerConfig
  pendingRetries : List (Int × Nat)
  inFlight : List Nat
  sends : List SendRecord
  completionCount : Nat
  warningCount : Nat
deriving DecidableEq

/-- Projection returned by `getStatus()` (scheduler.js lines 223-233). -/
structure SchedulerStatus where
  isRunning : Bool
  isPaused : Bool
  mode : String
  queueIndex : Nat
  queueLength : Nat
  prompts : List String
  currentPrompt : Option String
deriving DecidableEq

/-- The constant `MAX_RETRIES = 3` of `_executeCurrentItem`. -/
def maxRetries : Nat := 3

/-- The fixed retry delay (ms) of the `setTimeout` in `_executeCurrentItem`. -/
def retryDelayMs : Int := 3000

/-- Model of `_stopCheckTimer()`: if a handle is stored, clear the interval
(one fewer live timer) and null the handle. -/
def stopCheckTimer (s : SchedulerState) : SchedulerState :=
  if s.checkTimerOn then
    { s with checkTimerOn := false, activeCheckTimers := s.activeCheckTimers - 1 }
  else s

/-- Model of `_startCheckTimer()`: first `_stopCheckTimer()`, then install a
fresh `setInterval` handle (one more live timer). -/
def startCheckTimer (s : SchedulerState) : SchedulerState :=
  { (stopCheckTimer s) with
    checkTimerOn := true,
    activeCheckTimers := (stopCheckTimer s).activeCheckTimers + 1 }

/-- Model of `_onQueueComplete()`: set `isRunning = false`, stop the check
timer, and emit the completion notification.  Note it does not touch
`isPaused`. -/
def onQueueComplete (s : SchedulerState) : SchedulerState :=
  { (stopCheckTimer { s with isRunning := false }) with
    completionCount := (stopCheckTimer { s with isRunning := false }).completionCount + 1 }

/-- Model of the synchronous prefix of `async _executeCurrentItem(retryCount)`,
up to and including the initiation of `cdpHandler.sendPrompt(prompt)`:
guard on `!isRunning || isPaused`, treat `queueIndex >= runtimeQueue.length`
as completion, otherwise stamp `currentItemSentAt` and `lastActivityTime`
with `Date.now()` and start the send (registering the continuation that
captured `retryCount`). -/
def executeCurrentItem (now : Int) (retryCount : Nat) (s : SchedulerState) :
    SchedulerState :=
  if !s.isRunning || s.isPaused then s
  else if s.runtimeQueue.length ≤ s.queueIndex then onQueueComplete s
  else
    { s with
      currentItemSentAt := some now,
      lastActivityTime := some now,
      inFlight := s.inFlight ++ [retryCount],
      sends := s.sends ++
        [⟨s.queueIndex, s.runtimeQueue.getD s.queueIndex "", retryCount, now⟩] }

/-- Model of `_advanceQueue()`: increment `queueIndex`; past the end, complete;
otherwise execute the (new) current item with the default `retryCount = 0`. -/
def advanceQueue (now : Int) (s : SchedulerState) : SchedulerState :=
  if s.runtimeQueue.length ≤ s.queueIndex + 1 then
    onQueueComplete { s with queueIndex := s.queueIndex + 1 }
  else executeCurrentItem now 0 { s with queueIndex := s.queueIndex + 1 }

/-- Model of the send continuation of `_executeCurrentItem` (the code after
`await this.cdpHandler.sendPrompt(prompt)`): on success do nothing; on failure
with `retryCount < MAX_RETRIES - 1` schedule a retry timer for 3000 ms later
carrying `retryCount + 1`; on the final failure advance the queue.  The JS
code performs no freshness re-check here. -/
def sendOutcome (now : Int) (success : Bool) (retryCount : Nat)
    (s : SchedulerState) : SchedulerState :=
  if success then s
  else if retryCount < maxRetries - 1 then
    { s with pendingRetries := s.pendingRetries ++ [(now + retryDelayMs, retryCount + 1)] }
  else advanceQueue now s

/-- Model of `async _checkSilence()` (one tick of the 5-second interval).
`!this.currentItemSentAt` is falsy for both `null` and `0`, hence the extra
`sentAt = 0` branch.  `latestActivity > this.lastActivityTime` compares
against `0` when the field is `null` (JS coercion), hence `Option.getD 0`. -/
def checkSilence (now : Int) (sample : ActivitySample) (s : SchedulerState) :
    SchedulerState :=
  if !s.isRunning || s.isPaused then s
  else
    match s.currentItemSentAt with
    | none => s
    | some sentAt =>
      if sentAt = 0 then s
      else if now - sentAt < 10000 then s
      else
        if max sample.lastActivity sample.lastDomChange ≠ 0 ∧
            s.lastActivityTime.getD 0 < max sample.lastActivity sample.lastDomChange then
          if 1000 * (s.config.silenceTimeout : Int) ≤
              now - max sample.lastActivity sample.lastDomChange then
            advanceQueue now
              { s with lastActivityTime := some (max sample.lastActivity sample.lastDomChange) }
          else
            { s with lastActivityTime := some (max sample.lastActivity sample.lastDomChange) }
        else
          if 1000 * (s.config.silenceTimeout : Int) ≤ now - s.lastActivityTime.getD 0 then
            advanceQueue now s
          else s

/-- Resolution of `const items = prompts || this.config.prompts` in
`startQueue`: `none` models a call without argument (undefined); an explicit
array, even empty, is truthy and used as-is. -/
def resolveItems (arg : Option (List String)) (s : SchedulerState) :
    List String :=
  match arg with
  | some items => items
  | none => s.config.prompts

/-- Model of `startQueue(prompts)`: with an empty resolved list, log, show the
warning and return without touching state; otherwise snapshot the list
(`[...items]`), reset the indices and flags, run the first item, then start
the check timer. -/
def startQueue (arg : Option (List String)) (now : Int) (s : SchedulerState) :
    SchedulerState :=
  if (resolveItems arg s).isEmpty then { s with warningCount := s.warningCount + 1 }
  else
    startCheckTimer (executeCurrentItem now 0
      { s with runtimeQueue := resolveItems arg s, queueIndex := 0,
               isRunning := true, isPaused := false })

/-- Model of `stopQueue()`. -/
def stopQueue (s : SchedulerState) : SchedulerState :=
  stopCheckTimer { s with isRunning := false, isPaused := false }

/-- Model of `pauseQueue()`. -/
def pauseQueue (s : SchedulerState) : SchedulerState :=
  if s.isRunning then { s with isPaused := true } else s

/-- Model of `resumeQueue()`: re-executes the current item from scratch with
the default `retryCount = 0`. -/
def resumeQueue (now : Int) (s : SchedulerState) : SchedulerState :=
  if s.isRunning && s.isPaused then
    executeCurrentItem now 0 { s with isPaused := false }
  else s

/-- Model of `skipPrompt()`: guarded only by `isRunning`. -/
def skipPrompt (now : Int) (s : SchedulerState) : SchedulerState :=
  if s.isRunning then advanceQueue now s else s

/-- Model of `loadConfig()`: replaces the configuration snapshot read from the
environment; nothing else of the instance is written. -/
def loadConfig (cfg : SchedulerConfig) (s : SchedulerState) : SchedulerState :=
  { s with config := cfg }

/-- Model of `getStatus()`.  `this.runtimeQueue[this.queueIndex] || null`
yields `null` both out of range (`undefined` is falsy) and for the empty
string (falsy); `List.getD _ _ ""` followed by the emptiness test reproduces
exactly that. -/
def getStatus (s : SchedulerState) : SchedulerStatus :=
  { isRunning := s.isRunning
    isPaused := s.isPaused
    mode := s.config.mode
    queueIndex := s.queueIndex
    queueLength := s.runtimeQueue.length
    prompts := s.runtimeQueue
    currentPrompt := if s.runtimeQueue.getD s.queueIndex "" = "" then none
      else some (s.runtimeQueue.getD s.queueIndex "") }

/-- The state built by the constructor (scheduler.js lines 10-30); the
constructor ends in `loadConfig()`, whose environment read is the `cfg`
parameter here. -/
def initState (cfg : SchedulerConfig) : SchedulerState :=
  { isRunning := false
    isPaused := false
    queueIndex := 0
    runtimeQueue := []
    lastActivityTime := none
    currentItemSentAt := none
    checkTimerOn := false
    activeCheckTimers := 0
    config := cfg
    pendingRetries := []
    inFlight := []
    sends := []
    completionCount := 0
    warningCount := 0 }

/-- One atomic event of the single-threaded runtime: an externally triggered
scheduler operation, a silence-check tick (only while the interval handle is
installed), the firing of a scheduled retry timer (not before its fire-at
time), or the arrival of an in-flight send outcome.  `now`, samples, send
outcomes and reloaded configurations are chosen by the environment. -/
inductive SchedStep : SchedulerState → SchedulerState → Prop where
  | startQueueOp (s : SchedulerState) (arg : Option (List String)) (now : Int) :
      SchedStep s (startQueue arg now s)
  | stopQueueOp (s : SchedulerState) : SchedStep s (stopQueue s)
  | pauseQueueOp (s : SchedulerState) : SchedStep s (pauseQueue s)
  | resumeQueueOp (s : SchedulerState) (now : Int) : SchedStep s (resumeQueue now s)
  | skipPromptOp (s : SchedulerState) (now : Int) : SchedStep s (skipPrompt now s)
  | loadConfigOp (s : SchedulerState) (cfg : SchedulerConfig) :
      SchedStep s (loadConfig cfg s)
  | silenceTick (s : SchedulerState) (now : Int) (sample : ActivitySample)
      (ht : s.checkTimerOn = true) : SchedStep s (checkSilence now sample s)
  | retryFire (s : SchedulerState) (i : Nat) (now : Int)
      (hi : i < s.pendingRetries.length)
      (hfire : (s.pendingRetries.getD i ((0 : Int), (0 : Nat))).1 ≤ now) :
      SchedStep s (executeCurrentItem now (s.pendingRetries.getD i ((0 : Int), (0 : Nat))).2
        { s with pendingRetries := s.pendingRetries.eraseIdx i })
  | sendReturns (s : SchedulerState) (i : Nat) (now : Int) (success : Bool)
      (hi : i < s.inFlight.length) :
      SchedStep s (sendOutcome now success (s.inFlight.getD i 0)
        { s with inFlight := s.inFlight.eraseIdx i })

/-- States reachable from a freshly constructed scheduler by any sequence of
events. -/
inductive ReachableSched : SchedulerState → Prop where
  | init (cfg : SchedulerConfig) : ReachableSched (initState cfg)
  | step {s t : SchedulerState} : ReachableSched s → SchedStep s t → ReachableSched t

/-- Membership survives deleting one index from a list. -/
theorem mem_of_mem_eraseIdx {α : Type} {l : List α} {i : Nat} {a : α}
    (h : a ∈ l.eraseIdx i) : a ∈ l := by
  induction l generalizing i with
  | nil => simp [List.eraseIdx] at h
  | cons b l ih =>
    cases i with
    | zero => simpa [List.eraseIdx] using Or.inr h
    | succ j =>
      simp only [List.eraseIdx, List.mem_cons] at h ⊢
      rcases h with h | h
      · exact Or.inl h
      · exact Or.inr (ih h)

/-- An in-range `getD` is a member of the list. -/
theorem getD_mem_of_lt {α : Type} (l : List α) (i : Nat) (d : α)
    (h : i < l.length) : l.getD i d ∈ l := by
  rw [List.getD_eq_getElem l d h]
  exact List.getElem_mem h

/-- Structural invariant maintained by every event: the stored interval handle
accounts exactly for the live interval timers, and every retry counter in the
system (scheduled, in flight, or ever sent) is at most `MAX_RETRIES - 1 = 2`. -/
def SchedInv (s : SchedulerState) : Prop :=
  s.activeCheckTimers = (if s.checkTimerOn then 1 else 0) ∧
  (∀ p ∈ s.pendingRetries, p.2 ≤ 2) ∧
  (∀ rc ∈ s.inFlight, rc ≤ 2) ∧
  (∀ r ∈ s.sends, r.retryCount ≤ 2)

theorem stopCheckTimer_off (s : SchedulerState) :
    (stopCheckTimer s).checkTimerOn = false := by
  unfold stopCheckTimer
  split
  · rfl
  · next hc => simpa using hc

theorem inv_stopCheckTimer {s : SchedulerState} (h : SchedInv s) :
    SchedInv (stopCheckTimer s) := by
  obtain ⟨h1, h2, h3, h4⟩ := h
  unfold stopCheckTimer
  split
  · next hc =>
    refine ⟨?_, h2, h3, h4⟩
    simp [h1, hc]
  · exact ⟨h1, h2, h3, h4⟩

theorem inv_startCheckTimer {s : SchedulerState} (h : SchedInv s) :
    SchedInv (startCheckTimer s) := by
  obtain ⟨h1, h2, h3, h4⟩ := inv_stopCheckTimer h
  unfold startCheckTimer
  refine ⟨?_, h2, h3, h4⟩
  simp [h1, stopCheckTimer_off]

theorem inv_onQueueComplete {s : SchedulerState} (h : SchedInv s) :
    SchedInv (onQueueComplete s) := by
  obtain ⟨h1, h2, h3, h4⟩ := h
  have h0 : SchedInv (stopCheckTimer { s with isRunning := false }) :=
    inv_stopCheckTimer ⟨h1, h2, h3, h4⟩
  obtain ⟨g1, g2, g3, g4⟩ := h0
  exact ⟨g1, g2, g3, g4⟩

theorem inv_executeCurrentItem {s : SchedulerState} {now : Int} {rc : Nat}
    (h : SchedInv s) (hrc : rc ≤ 2) : SchedInv (executeCurrentItem now rc s) := by
  obtain ⟨h1, h2, h3, h4⟩ := h
  unfold executeCurrentItem
  split
  · exact ⟨h1, h2, h3, h4⟩
  · split
    · exact inv_onQueueComplete ⟨h1, h2, h3, h4⟩
    · refine ⟨h1, h2, ?_, ?_⟩
      · intro x hx
        rcases List.mem_append.mp hx with hx | hx
        · exact h3 x hx
        · simp at hx; omega
      · intro r hr
        rcases List.mem_append.mp hr with hr | hr
        · exact h4 r hr
        · simp at hr; simp [hr, hrc]

theorem inv_advanceQueue {s : SchedulerState} {now : Int} (h : SchedInv s) :
    SchedInv (advanceQueue now s) := by
  obtain ⟨h1, h2, h3, h4⟩ := h
  unfold advanceQueue
  split
  · exact inv_onQueueComplete ⟨h1, h2, h3, h4⟩
  · exact inv_executeCurrentItem ⟨h1, h2, h3, h4⟩ (by omega)

theorem inv_sendOutcome {s : SchedulerState} {now : Int} {success : Bool}
    {rc : Nat} (h : SchedInv s) (hrc : rc ≤ 2) :
    SchedInv (sendOutcome now success rc s) := by
  obtain ⟨h1, h2, h3, h4⟩ := h
  unfold sendOutcome
  split
  · exact ⟨h1, h2, h3, h4⟩
  · split
    · next hlt =>
      refine ⟨h1, ?_, h3, h4⟩
      intro p hp
      rcases List.mem_append.mp hp with hp | hp
      · exact h2 p hp
      · simp at hp
        have : p.2 = rc + 1 := by simp [hp]
        simp [maxRetries] at hlt
        omega
    · exact inv_advanceQueue ⟨h1, h2, h3, h4⟩

theorem inv_checkSilence {s : SchedulerState} {now : Int}
    {sample : ActivitySample} (h : SchedInv s) :
    SchedInv (checkSilence now sample s) := by
  obtain ⟨h1, h2, h3, h4⟩ := h
  unfold checkSilence
  split
  · exact ⟨h1, h2, h3, h4⟩
  · split
    · exact ⟨h1, h2, h3, h4⟩
    · split
      · exact ⟨h1, h2, h3, h4⟩
      · split
        · exact ⟨h1, h2, h3, h4⟩
        · split
          · split
            · exact inv_advanceQueue ⟨h1, h2, h3, h4⟩
            · exact ⟨h1, h2, h3, h4⟩
          · split
            · exact inv_advanceQueue ⟨h1, h2, h3, h4⟩
            · exact ⟨h1, h2, h3, h4⟩

theorem inv_startQueue {s : SchedulerState} {arg : Option (List String)}
    {now : Int} (h : SchedInv s) : SchedInv (startQueue arg now s) := by
  obtain ⟨h1, h2, h3, h4⟩ := h
  unfold startQueue
  split
  · exact ⟨h1, h2, h3, h4⟩
  · exact inv_startCheckTimer (inv_executeCurrentItem ⟨h1, h2, h3, h4⟩ (by omega))

theorem inv_stopQueue {s : SchedulerState} (h : SchedInv s) :
    SchedInv (stopQueue s) := by
  obtain ⟨h1, h2, h3, h4⟩ := h
  exact inv_stopCheckTimer ⟨h1, h2, h3, h4⟩

theorem inv_pauseQueue {s : SchedulerState} (h : SchedInv s) :
    SchedInv (pauseQueue s) := by
  obtain ⟨h1, h2, h3, h4⟩ := h
  unfold pauseQueue
  split
  · exact ⟨h1, h2, h3, h4⟩
  · exact ⟨h1, h2, h3, h4⟩

theorem inv_resumeQueue {s : SchedulerState} {now : Int} (h : SchedInv s) :
    SchedInv (resumeQueue now s) := by
  obtain ⟨h1, h2, h3, h4⟩ := h
  unfold resumeQueue
  split
  · exact inv_executeCurrentItem ⟨h1, h2, h3, h4⟩ (by omega)
  · exact ⟨h1, h2, h3, h4⟩

theorem inv_skipPrompt {s : SchedulerState} {now : Int} (h : SchedInv s) :
    SchedInv (skipPrompt now s) := by
  obtain ⟨h1, h2, h3, h4⟩ := h
  unfold skipPrompt
  split
  · exact inv_advanceQueue ⟨h1, h2, h3, h4⟩
  · exact ⟨h1, h2, h3, h4⟩

theorem inv_loadConfig {s : SchedulerState} {cfg : SchedulerConfig}
    (h : SchedInv s) : SchedInv (loadConfig cfg s) := by
  obtain ⟨h1, h2, h3, h4⟩ := h
  exact ⟨h1, h2, h3, h4⟩

theorem inv_erasePending {s : SchedulerState} {i : Nat} (h : SchedInv s) :
    SchedInv { s with pendingRetries := s.pendingRetries.eraseIdx i } := by
  obtain ⟨h1, h2, h3, h4⟩ := h
  exact ⟨h1, fun p hp => h2 p (mem_of_mem_eraseIdx hp), h3, h4⟩

theorem inv_eraseInFlight {s : SchedulerState} {i : Nat} (h : SchedInv s) :
    SchedInv { s with inFlight := s.inFlight.eraseIdx i } := by
  obtain ⟨h1, h2, h3, h4⟩ := h
  exact ⟨h1, h2, fun rc hrc => h3 rc (mem_of_mem_eraseIdx hrc), h4⟩

theorem inv_init (cfg : SchedulerConfig) : SchedInv (initState cfg) := by
  refine ⟨rfl, ?_, ?_, ?_⟩ <;> intro x hx <;> simp [initState] at hx

/-- Every reachable scheduler state satisfies the structural invariant. -/
theorem reachable_inv {s : SchedulerState} (h : ReachableSched s) : SchedInv s := by
  induction h with
  | init cfg => exact inv_init cfg
  | step _ hstep ih =>
    cases hstep with
    | startQueueOp arg now => exact inv_startQueue ih
    | stopQueueOp => exact inv_stopQueue ih
    | pauseQueueOp => exact inv_pauseQueue ih
    | resumeQueueOp now => exact inv_resumeQueue ih
    | skipPromptOp now => exact inv_skipPrompt ih
    | loadConfigOp cfg => exact inv_loadConfig ih
    | silenceTick now sample ht => exact inv_checkSilence ih
    | retryFire i now hi hfire =>
      exact inv_executeCurrentItem (inv_erasePending ih)
        (ih.2.1 _ (getD_mem_of_lt _ _ _ hi))
    | sendReturns i now success hi =>
      exact inv_sendOutcome (inv_eraseInFlight ih)
        (ih.2.2.1 _ (getD_mem_of_lt _ _ _ hi))

@[simp] theorem stopCheckTimer_queueIndex (s : SchedulerState) :
    (stopCheckTimer s).queueIndex = s.queueIndex := by
  unfold stopCheckTimer; split <;> rfl

@[simp] theorem stopCheckTimer_lastActivityTime (s : SchedulerState) :
    (stopCheckTimer s).lastActivityTime = s.lastActivityTime := by
  unfold stopCheckTimer; split <;> rfl

@[simp] theorem stopCheckTimer_runtimeQueue (s : SchedulerState) :
    (stopCheckTimer s).runtimeQueue = s.runtimeQueue := by
  unfold stopCheckTimer; split <;> rfl

@[simp] theorem stopCheckTimer_isRunning (s : SchedulerState) :
    (stopCheckTimer s).isRunning = s.isRunning := by
  unfold stopCheckTimer; split <;> rfl

@[simp] theorem stopCheckTimer_isPaused (s : SchedulerState) :
    (stopCheckTimer s).isPaused = s.isPaused := by
  unfold stopCheckTimer; split <;> rfl

@[simp] theorem stopCheckTimer_completionCount (s : SchedulerState) :
    (stopCheckTimer s).completionCount = s.completionCount := by
  unfold stopCheckTimer; split <;> rfl

@[simp] theorem stopCheckTimer_sends (s : SchedulerState) :
    (stopCheckTimer s).sends = s.sends := by
  unfold stopCheckTimer; split <;> rfl

@[simp] theorem stopCheckTimer_currentItemSentAt (s : SchedulerState) :
    (stopCheckTimer s).currentItemSentAt = s.currentItemSentAt := by
  unfold stopCheckTimer; split <;> rfl

@[simp] theorem stopCheckTimer_warningCount (s : SchedulerState) :
    (stopCheckTimer s).warningCount = s.warningCount := by
  unfold stopCheckTimer; split <;> rfl

@[simp] theorem onQueueComplete_queueIndex (s : SchedulerState) :
    (onQueueComplete s).queueIndex = s.queueIndex := by
  unfold onQueueComplete; simp

@[simp] theorem onQueueComplete_lastActivityTime (s : SchedulerState) :
    (onQueueComplete s).lastActivityTime = s.lastActivityTime := by
  unfold onQueueComplete; simp

@[simp] theorem onQueueComplete_runtimeQueue (s : SchedulerState) :
    (onQueueComplete s).runtimeQueue = s.runtimeQueue := by
  unfold onQueueComplete; simp

@[simp] theorem onQueueComplete_sends (s : SchedulerState) :
    (onQueueComplete s).sends = s.sends := by
  unfold onQueueComplete; simp

@[simp] theorem onQueueComplete_isRunning (s : SchedulerState) :
    (onQueueComplete s).isRunning = false := by
  unfold onQueueComplete; simp

@[simp] theorem onQueueComplete_completionCount (s : SchedulerState) :
    (onQueueComplete s).completionCount = s.completionCount + 1 := by
  unfold onQueueComplete; simp

@[simp] theorem executeCurrentItem_queueIndex (now : Int) (rc : Nat)
    (s : SchedulerState) : (executeCurrentItem now rc s).queueIndex = s.queueIndex := by
  unfold executeCurrentItem
  split
  · rfl
  · split
    · simp
    · rfl

@[simp] theorem executeCurrentItem_runtimeQueue (now : Int) (rc : Nat)
    (s : SchedulerState) :
    (executeCurrentItem now rc s).runtimeQueue = s.runtimeQueue := by
  unfold executeCurrentItem
  split
  · rfl
  · split
    · simp
    · rfl

@[simp] theorem advanceQueue_queueIndex (now : Int) (s : SchedulerState) :
    (advanceQueue now s).queueIndex = s.queueIndex + 1 := by
  unfold advanceQueue
  split
  · simp
  · simp

/-- The execution routine either leaves the watermark alone or stamps it with
the current time. -/
theorem executeCurrentItem_wm (now : Int) (rc : Nat) (s : SchedulerState) :
    (executeCurrentItem now rc s).lastActivityTime = s.lastActivityTime ∨
    (executeCurrentItem now rc s).lastActivityTime = some now := by
  unfold executeCurrentItem
  split
  · exact Or.inl rfl
  · split
    · exact Or.inl (by simp)
    · exact Or.inr rfl

/-- Advancing the queue either leaves the watermark alone or stamps it with
the current time. -/
theorem advanceQueue_wm (now : Int) (s : SchedulerState) :
    (advanceQueue now s).lastActivityTime = s.lastActivityTime ∨
    (advanceQueue now s).lastActivityTime = some now := by
  unfold advanceQueue
  split
  · exact Or.inl (by simp)
  · exact executeCurrentItem_wm now 0 _

/-- Characterization of the execution routine on a live, unpaused state with a
current item: it stamps the timestamps and initiates exactly one send of the
item at `queueIndex` with the given retry counter. -/
theorem executeCurrentItem_sendEq (now : Int) (rc : Nat) (s : SchedulerState)
    (hr : s.isRunning = true) (hp : s.isPaused = false)
    (hlt : s.queueIndex < s.runtimeQueue.length) :
    executeCurrentItem now rc s =
      { s with
        currentItemSentAt := some now,
        lastActivityTime := some now,
        inFlight := s.inFlight ++ [rc],
        sends := s.sends ++
          [⟨s.queueIndex, s.runtimeQueue.getD s.queueIndex "", rc, now⟩] } := by
  unfold executeCurrentItem
  rw [if_neg (by simp [hr, hp]), if_neg (by omega)]

/-- If the current watermark is at most `now`, advancing the queue cannot
lower it (it either keeps it or stamps it with `now`). -/
theorem wm_le_advance (now : Int) (s : SchedulerState)
    (h : s.lastActivityTime.getD 0 ≤ now) :
    s.lastActivityTime.getD 0 ≤ (advanceQueue now s).lastActivityTime.getD 0 := by
  rcases advanceQueue_wm now s with h2 | h2
  · rw [h2]
  · rw [h2]
    simpa using h

/-- Claim C5: the activity watermark (`lastActivityTime`) is monotonic: for
every silence-check tick, with any activity sample returned by `getStats`
(including samples smaller than the current watermark or zero), the watermark
after the tick is at least the watermark before it. -/
theorem c5_watermark_monotone (now : Int) (sample : ActivitySample)
    (s : SchedulerState) :
    s.lastActivityTime.getD 0 ≤ (checkSilence now sample s).lastActivityTime.getD 0 := by
  have hT : (0 : Int) ≤ 1000 * (s.config.silenceTimeout : Int) := by omega
  unfold checkSilence
  split
  · exact le_rfl
  · split
    · exact le_rfl
    · split
      · exact le_rfl
      · split
        · exact le_rfl
        · split
          · next hup =>
            split
            · next hsil =>
              refine le_trans (le_of_lt hup.2) ?_
              refine le_trans ?_ (wm_le_advance now _ ?_)
              · simp
              · simp only [Option.getD_some]
                omega
            · exact le_of_lt hup.2
          · next hup =>
            split
            · next hsil =>
              exact wm_le_advance now s (by omega)
            · exact le_rfl

/-- Claim C6: the silence detector never advances the queue (indeed does
nothing at all) on a tick less than 10 seconds after `currentItemSentAt`,
under any configured `silenceTimeout`; and with `silenceTimeout = 30` and a
sample reporting `lastActivity = 0` and `lastDomChange = 0` while the
watermark still equals the send time, a tick advances the current item
exactly when at least 30 seconds have elapsed since the item was sent. -/
theorem c6_grace_and_silence_advance (s : SchedulerState) (now : Int)
    (sample : ActivitySample) (t : Int) (hsent : s.currentItemSentAt = some t) :
    (now - t < 10000 → checkSilence now sample s = s) ∧
    (s.isRunning = true → s.isPaused = false → 0 < t →
      s.lastActivityTime = some t → s.config.silenceTimeout = 30 →
      sample.lastActivity = 0 → sample.lastDomChange = 0 →
      ((checkSilence now sample s).queueIndex = s.queueIndex + 1 ↔
        30000 ≤ now - t)) := by
  constructor
  · intro hlt
    unfold checkSilence
    split
    · rfl
    · rw [hsent]
      split
      · rfl
      · next sentAt heq =>
        injection heq with h
        subst h
        split <;> rfl
  · intro hr hp ht0 hwm hcfg ha hd
    have hguard : ¬((!s.isRunning || s.isPaused) = true) := by simp [hr, hp]
    have hmax : max sample.lastActivity sample.lastDomChange = 0 := by
      simp [ha, hd]
    unfold checkSilence
    rw [if_neg hguard, hsent]
    split
    · next heq => cases heq
    · next sentAt heq =>
      injection heq with h
      subst h
      rw [if_neg (show ¬ t = 0 by omega)]
      by_cases hlt : now - t < 10000
      · rw [if_pos hlt]
        constructor
        · intro habs
          omega
        · intro h30
          omega
      · rw [if_neg hlt]
        rw [if_neg (by simp [hmax])]
        rw [hwm, hcfg]
        by_cases hs : 1000 * ((30 : Nat) : Int) ≤ now - (some t).getD 0
        · rw [if_pos hs, advanceQueue_queueIndex]
          simp only [Option.getD_some] at hs
          constructor
          · intro _
            omega
          · intro _
            rfl
        · rw [if_neg hs]
          simp only [Option.getD_some] at hs
          constructor
          · intro habs
            omega
          · intro h30
            omega

/-- Claim C7 (amended): `loadConfig` replaces only the configuration snapshot;
every piece of in-flight queue-run state — `isRunning`, `isPaused`,
`queueIndex`, `runtimeQueue`, `currentItemSentAt`, the watermark, the pending
retries and the in-flight sends — is left unchanged.  (The new snapshot is,
however, read live by the silence detector, see the counterexample.) -/
theorem c7_load_config_frame (cfg : SchedulerConfig) (s : SchedulerState) :
    (loadConfig cfg s).isRunning = s.isRunning ∧
    (loadConfig cfg s).isPaused = s.isPaused ∧
    (loadConfig cfg s).queueIndex = s.queueIndex ∧
    (loadConfig cfg s).runtimeQueue = s.runtimeQueue ∧
    (loadConfig cfg s).currentItemSentAt = s.currentItemSentAt ∧
    (loadConfig cfg s).lastActivityTime = s.lastActivityTime ∧
    (loadConfig cfg s).pendingRetries = s.pendingRetries ∧
    (loadConfig cfg s).inFlight = s.inFlight ∧
    (loadConfig cfg s).config = cfg :=
  ⟨rfl, rfl, rfl, rfl, rfl, rfl, rfl, rfl, rfl⟩

/-- Claim C8 (amended): `getStatus().currentPrompt` is the item at
`queueIndex` when that index is in range and the item is a non-empty string;
it is `null` both when the index is out of range and when the item is the
empty string (which `runtimeQueue[queueIndex] || null` maps to `null`). -/
theorem c8_current_prompt_amended (s : SchedulerState) :
    (s.runtimeQueue.length ≤ s.queueIndex → (getStatus s).currentPrompt = none) ∧
    (∀ h : s.queueIndex < s.runtimeQueue.length,
      (s.runtimeQueue.get ⟨s.queueIndex, h⟩ = "" →
        (getStatus s).currentPrompt = none) ∧
      (s.runtimeQueue.get ⟨s.queueIndex, h⟩ ≠ "" →
        (getStatus s).currentPrompt =
          some (s.runtimeQueue.get ⟨s.queueIndex, h⟩))) := by
  constructor
  · intro hle
    have hd := List.getD_eq_default s.runtimeQueue "" hle
    simp only [getStatus]
    rw [hd]
    simp
  · intro h
    have hg : s.runtimeQueue.getD s.queueIndex "" =
        s.runtimeQueue.get ⟨s.queueIndex, h⟩ := by
      rw [List.getD_eq_getElem _ _ h]
      simp
    constructor
    · intro he
      simp only [getStatus]
      rw [hg, he]
      simp
    · intro hne
      simp only [getStatus]
      rw [hg, if_neg hne]

/-- Claim C9: a `startQueue` call whose resolved item list (explicit argument,
else the configured default) is empty sends nothing, produces exactly one
warning, and mutates no scheduler state. -/
theorem c9_empty_start_no_mutation (s : SchedulerState)
    (arg : Option (List String)) (now : Int)
    (h : resolveItems arg s = []) :
    (startQueue arg now s).isRunning = s.isRunning ∧
    (startQueue arg now s).isPaused = s.isPaused ∧
    (startQueue arg now s).queueIndex = s.queueIndex ∧
    (startQueue arg now s).runtimeQueue = s.runtimeQueue ∧
    (startQueue arg now s).sends = s.sends ∧
    (startQueue arg now s).inFlight = s.inFlight ∧
    (startQueue arg now s).warningCount = s.warningCount + 1 := by
  have he : startQueue arg now s = { s with warningCount := s.warningCount + 1 } := by
    unfold startQueue
    rw [h]
    rfl
  rw [he]
  exact ⟨rfl, rfl, rfl, rfl, rfl, rfl, rfl⟩

/-- Claim C10: `startQueue` with a non-empty list snapshots the list into
`runtimeQueue`, resets `queueIndex` to 0, sets `isRunning`, clears `isPaused`,
emits no completion notification for any interrupted run, and ends with the
check-timer handle installed; moreover in every reachable state at most one
silence-check interval timer is live (the old one is cancelled before a new
one starts). -/
theorem c10_restart_semantics (s t : SchedulerState) (items : List String)
    (now : Int) (hne : items ≠ []) (ht : ReachableSched t) :
    (startQueue (some items) now s).runtimeQueue = items ∧
    (startQueue (some items) now s).queueIndex = 0 ∧
    (startQueue (some items) now s).isRunning = true ∧
    (startQueue (some items) now s).isPaused = false ∧
    (startQueue (some items) now s).checkTimerOn = true ∧
    (startQueue (some items) now s).completionCount = s.completionCount ∧
    t.activeCheckTimers ≤ 1 := by
  have htimer : t.activeCheckTimers ≤ 1 := by
    have h1 := (reachable_inv ht).1
    rw [h1]
    split <;> omega
  have hlen : 0 < items.length := List.length_pos.mpr hne
  have h2 : ¬((resolveItems (some items) s).isEmpty = true) := by
    simp [resolveItems, hne]
  have hq : startQueue (some items) now s = startCheckTimer (executeCurrentItem now 0
      { s with runtimeQueue := items, queueIndex := 0,
               isRunning := true, isPaused := false }) := by
    unfold startQueue
    rw [if_neg h2]
    rfl
  have hexec := executeCurrentItem_sendEq now 0
      { s with runtimeQueue := items, queueIndex := 0,
               isRunning := true, isPaused := false }
      rfl rfl (by simpa using hlen)
  rw [hq, hexec]
  refine ⟨?_, ?_, ?_, ?_, ?_, ?_, htimer⟩ <;>
    simp [startCheckTimer]

/-- Claim C4 (amended): every retry counter anywhere in a reachable system
(scheduled timers, past sends) is at most `MAX_RETRIES - 1 = 2`, so no send
attempt ever carries an index beyond 2; a failing attempt with remaining
budget schedules exactly one retry timer for 3000 ms later carrying the
incremented counter; a failing attempt at the final index hands over to
`_advanceQueue`, which moves `queueIndex` from `k` to `k+1` (abandoning, not
requeueing); and an execution reaching the send on a live unpaused state sends
precisely the item currently at `queueIndex`.  (When the queue moves between a
failure and its retry firing, the retry executes whatever item is then
current with the incremented counter — see the counterexample.) -/
theorem c4_retry_policy (s : SchedulerState) (hs : ReachableSched s)
    (now : Int) (rc : Nat) :
    (∀ p ∈ s.pendingRetries, p.2 ≤ maxRetries - 1) ∧
    (∀ r ∈ s.sends, r.retryCount ≤ maxRetries - 1) ∧
    (rc < maxRetries - 1 → sendOutcome now false rc s =
      { s with pendingRetries := s.pendingRetries ++ [(now + retryDelayMs, rc + 1)] }) ∧
    (sendOutcome now false (maxRetries - 1) s = advanceQueue now s) ∧
    ((advanceQueue now s).queueIndex = s.queueIndex + 1) ∧
    (s.isRunning = true → s.isPaused = false →
      s.queueIndex < s.runtimeQueue.length →
      (executeCurrentItem now rc s).sends = s.sends ++
        [⟨s.queueIndex, s.runtimeQueue.getD s.queueIndex "", rc, now⟩]) := by
  obtain ⟨h1, h2, h3, h4⟩ := reachable_inv hs
  refine ⟨h2, h4, ?_, ?_, advanceQueue_queueIndex now s, ?_⟩
  · intro hrc
    unfold sendOutcome
    rw [if_neg (by simp), if_pos hrc]
  · unfold sendOutcome
    rw [if_neg (by simp), if_neg (by omega)]
  · intro hr hp hlt
    rw [executeCurrentItem_sendEq now rc s hr hp hlt]

/-- A concrete configuration with the source defaults (`mode = queue`,
`silenceTimeout = 30`). -/
def defaultCfg : SchedulerConfig :=
  { enabled := false, mode := "queue", prompts := [],
    silenceTimeout := 30, intervalMinutes := 30, intervalPrompt := "" }

def c1s0 : SchedulerState := initState defaultCfg

def c1s1 : SchedulerState := startQueue (some ["A"]) 1000 c1s0

def c1s2 : SchedulerState :=
  sendOutcome 2000 false (c1s1.inFlight.getD 0 0)
    { c1s1 with inFlight := c1s1.inFlight.eraseIdx 0 }

def c1s3 : SchedulerState :=
  executeCurrentItem 5000 (c1s2.pendingRetries.getD 0 ((0 : Int), (0 : Nat))).2
    { c1s2 with pendingRetries := c1s2.pendingRetries.eraseIdx 0 }

def c1s4 : SchedulerState :=
  sendOutcome 6000 false (c1s3.inFlight.getD 0 0)
    { c1s3 with inFlight := c1s3.inFlight.eraseIdx 0 }

def c1s5 : SchedulerState :=
  executeCurrentItem 9000 (c1s4.pendingRetries.getD 0 ((0 : Int), (0 : Nat))).2
    { c1s4 with pendingRetries := c1s4.pendingRetries.eraseIdx 0 }

def c1s6 : SchedulerState := skipPrompt 9500 c1s5

def c1s7 : SchedulerState :=
  sendOutcome 12000 false (c1s6.inFlight.getD 0 0)
    { c1s6 with inFlight := c1s6.inFlight.eraseIdx 0 }

/-- Claim C1 is violated by the code: in the reachable state obtained by
running `startQueue(["A"])`, letting the first two send attempts fail and
retry, calling `skipPrompt()` (which completes the run and notifies) while the
third attempt is still in flight, and then letting that third attempt fail,
the stale failure handler calls `_advanceQueue` again: `queueIndex` becomes
`2 > 1 = len(runtimeQueue)` and the completion notification fires a second
time for the same run. -/
theorem c1_queue_index_overrun :
    ReachableSched c1s7 ∧ c1s7.runtimeQueue.length < c1s7.queueIndex ∧
    c1s7.queueIndex = 2 ∧ c1s7.runtimeQueue.length = 1 ∧
    c1s7.completionCount = 2 := by
  refine ⟨?_, by decide, by decide, by decide, by decide⟩
  exact (((((((ReachableSched.init defaultCfg).step
    (SchedStep.startQueueOp c1s0 (some ["A"]) 1000)).step
    (SchedStep.sendReturns c1s1 0 2000 false (by decide))).step
    (SchedStep.retryFire c1s2 0 5000 (by decide) (by decide))).step
    (SchedStep.sendReturns c1s3 0 6000 false (by decide))).step
    (SchedStep.retryFire c1s4 0 9000 (by decide) (by decide))).step
    (SchedStep.skipPromptOp c1s5 9500)).step
    (SchedStep.sendReturns c1s6 0 12000 false (by decide))

def c2s0 : SchedulerState := initState defaultCfg

def c2s1 : SchedulerState := startQueue (some ["A"]) 1000 c2s0

def c2s2 : SchedulerState := pauseQueue c2s1

def c2s3 : SchedulerState := skipPrompt 2000 c2s2

/-- Claim C2 is violated by the code: after `startQueue(["A"])`,
`pauseQueue()`, `skipPrompt()`, the queue completes while paused and
`_onQueueComplete` resets only `isRunning`, leaving the reachable state with
`isPaused = true` and `isRunning = false` — the invariant
`isPaused ⟹ isRunning` does not survive completion while paused. -/
theorem c2_paused_without_running :
    ReachableSched c2s3 ∧ c2s3.isPaused = true ∧ c2s3.isRunning = false := by
  refine ⟨?_, by decide, by decide⟩
  exact (((ReachableSched.init defaultCfg).step
    (SchedStep.startQueueOp c2s0 (some ["A"]) 1000)).step
    (SchedStep.pauseQueueOp c2s1)).step
    (SchedStep.skipPromptOp c2s2 2000)

def c3s0 : SchedulerState := initState defaultCfg

def c3s1 : SchedulerState := startQueue (some ["A"]) 1000 c3s0

def c3s2 : SchedulerState :=
  sendOutcome 2000 false (c3s1.inFlight.getD 0 0)
    { c3s1 with inFlight := c3s1.inFlight.eraseIdx 0 }

def c3s3 : SchedulerState :=
  executeCurrentItem 5000 (c3s2.pendingRetries.getD 0 ((0 : Int), (0 : Nat))).2
    { c3s2 with pendingRetries := c3s2.pendingRetries.eraseIdx 0 }

def c3s4 : SchedulerState :=
  sendOutcome 6000 false (c3s3.inFlight.getD 0 0)
    { c3s3 with inFlight := c3s3.inFlight.eraseIdx 0 }

def c3s5 : SchedulerState :=
  executeCurrentItem 9000 (c3s4.pendingRetries.getD 0 ((0 : Int), (0 : Nat))).2
    { c3s4 with pendingRetries := c3s4.pendingRetries.eraseIdx 0 }

def c3s6 : SchedulerState := stopQueue c3s5

def c3s7 : SchedulerState :=
  sendOutcome 20000 false (c3s6.inFlight.getD 0 0)
    { c3s6 with inFlight := c3s6.inFlight.eraseIdx 0 }

/-- Claim C3 is violated by the code: `c3s6` is a reachable state in which
`stopQueue()` has set `isRunning = false` while the third (final-budget) send
attempt is still in flight; the arrival of that attempt's failure outcome is a
legal event (`SchedStep c3s6 c3s7`), and it mutates state after the stop —
`queueIndex` advances from 0 to 1 and the completion notification fires —
because the post-`await` failure handler re-checks nothing. -/
theorem c3_stale_send_mutates_after_stop :
    ReachableSched c3s6 ∧ c3s6.isRunning = false ∧ SchedStep c3s6 c3s7 ∧
    c3s7.queueIndex = c3s6.queueIndex + 1 ∧
    c3s7.completionCount = c3s6.completionCount + 1 := by
  refine ⟨?_, by decide, SchedStep.sendReturns c3s6 0 20000 false (by decide),
    by decide, by decide⟩
  exact ((((((ReachableSched.init defaultCfg).step
    (SchedStep.startQueueOp c3s0 (some ["A"]) 1000)).step
    (SchedStep.sendReturns c3s1 0 2000 false (by decide))).step
    (SchedStep.retryFire c3s2 0 5000 (by decide) (by decide))).step
    (SchedStep.sendReturns c3s3 0 6000 false (by decide))).step
    (SchedStep.retryFire c3s4 0 9000 (by decide) (by decide))).step
    (SchedStep.stopQueueOp c3s5)

def c4s0 : SchedulerState := initState defaultCfg

def c4s1 : SchedulerState := startQueue (some ["A", "B"]) 1000 c4s0

def c4s2 : SchedulerState :=
  sendOutcome 2000 false (c4s1.inFlight.getD 0 0)
    { c4s1 with inFlight := c4s1.inFlight.eraseIdx 0 }

def c4s3 : SchedulerState := skipPrompt 3000 c4s2

def c4s4 : SchedulerState :=
  executeCurrentItem 5000 (c4s3.pendingRetries.getD 0 ((0 : Int), (0 : Nat))).2
    { c4s3 with pendingRetries := c4s3.pendingRetries.eraseIdx 0 }

/-- Claim C4, as stated, is false on the code: in this reachable trace the
send attempt of item 0 ("A") fails with remaining budget and schedules a
retry, but before the retry fires `skipPrompt()` advances the queue; the retry
then executes item 1 ("B") with retry counter 1 — it is not a retry of the
same item `k`, and the re-executed item's attempt does not start at counter 0.
The send log records exactly `(0,"A",0)`, `(1,"B",0)`, `(1,"B",1)`. -/
theorem c4_retry_executes_wrong_item :
    ReachableSched c4s4 ∧
    c4s4.sends = [⟨0, "A", 0, 1000⟩, ⟨1, "B", 0, 3000⟩, ⟨1, "B", 1, 5000⟩] := by
  refine ⟨?_, by decide⟩
  exact ((((ReachableSched.init defaultCfg).step
    (SchedStep.startQueueOp c4s0 (some ["A", "B"]) 1000)).step
    (SchedStep.sendReturns c4s1 0 2000 false (by decide))).step
    (SchedStep.skipPromptOp c4s2 3000)).step
    (SchedStep.retryFire c4s3 0 5000 (by decide) (by decide))

/-- The reloaded configuration of the C7 counterexample: identical to the
default but with `silenceTimeout = 10`. -/
def cfg10 : SchedulerConfig := { defaultCfg with silenceTimeout := 10 }

def c7s1 : SchedulerState := startQueue (some ["A", "B"]) 1000 (initState defaultCfg)

/-- Claim C7, as stated, is false on the code: `c7s1` is a reachable in-flight
run started under `silenceTimeout = 30`; a silence tick at 15 s with a zero
sample does not advance it, but after a `loadConfig` reload to
`silenceTimeout = 10` (a legal event) the very same tick advances it —
`_checkSilence` reads `this.config.silenceTimeout` live, so a reload takes
effect on the run already in progress, not only on the next start call. -/
theorem c7_reload_affects_inflight_run :
    ReachableSched c7s1 ∧ c7s1.isRunning = true ∧
    SchedStep c7s1 (loadConfig cfg10 c7s1) ∧
    (checkSilence 16000 ⟨0, 0⟩ c7s1).queueIndex = c7s1.queueIndex ∧
    (checkSilence 16000 ⟨0, 0⟩ (loadConfig cfg10 c7s1)).queueIndex =
      c7s1.queueIndex + 1 := by
  refine ⟨?_, by decide, SchedStep.loadConfigOp c7s1 cfg10, by decide, by decide⟩
  exact (ReachableSched.init defaultCfg).step
    (SchedStep.startQueueOp (initState defaultCfg) (some ["A", "B"]) 1000)

def c8s1 : SchedulerState := startQueue (some [""]) 1000 (initState defaultCfg)

/-- Claim C8, as stated, is false on the code: `startQueue([""])` yields a
reachable state whose current item (index 0, in range) is the empty string,
yet `getStatus().currentPrompt` is `null`, because
`runtimeQueue[queueIndex] || null` maps the falsy empty string to `null`
instead of returning the item. -/
theorem c8_empty_string_prompt_is_null :
    ReachableSched c8s1 ∧ c8s1.queueIndex < c8s1.runtimeQueue.length ∧
    c8s1.runtimeQueue.getD c8s1.queueIndex "x" = "" ∧
    (getStatus c8s1).currentPrompt = none ∧
    (getStatus c8s1).currentPrompt ≠
      some (c8s1.runtimeQueue.getD c8s1.queueIndex "x") := by
  refine ⟨?_, by decide, by decide, by decide, by decide⟩
  exact (ReachableSched.init defaultCfg).step
    (SchedStep.startQueueOp (initState defaultCfg) (some [""]) 1000)

/-- A concrete running state for the C6 witness: item "A" sent at 1000 ms,
watermark 1000 ms, default configuration (`silenceTimeout = 30`). -/
def c6ws : SchedulerState :=
  { initState defaultCfg with
    isRunning := true,
    runtimeQueue := ["A"],
    currentItemSentAt := some 1000,
    lastActivityTime := some 1000 }

theorem c6_grace_and_silence_advance_witness :
    checkSilence 5000 ⟨0, 0⟩ c6ws = c6ws ∧
    (checkSilence 41000 ⟨0, 0⟩ c6ws).queueIndex = c6ws.queueIndex + 1 := by
  constructor
  · exact (c6_grace_and_silence_advance c6ws 5000 ⟨0, 0⟩ 1000 rfl).1 (by decide)
  · exact ((c6_grace_and_silence_advance c6ws 41000 ⟨0, 0⟩ 1000 rfl).2
      rfl rfl (by decide) rfl rfl rfl rfl).mpr (by decide)

/-- A concrete state for the C8 amended-claim witness: one-element queue with
a non-empty current item. -/
def c8ws : SchedulerState :=
  { initState defaultCfg with runtimeQueue := ["a"], queueIndex := 0 }

theorem c8_current_prompt_amended_witness :
    (getStatus c8ws).currentPrompt = some "a" := by
  have h := ((c8_current_prompt_amended c8ws).2 (by decide)).2 (by decide)
  exact h.trans (by decide)

theorem c9_empty_start_no_mutation_witness :
    (startQueue (some []) 500 (initState defaultCfg)).warningCount =
      (initState defaultCfg).warningCount + 1 ∧
    (startQueue (some []) 500 (initState defaultCfg)).isRunning =
      (initState defaultCfg).isRunning := by
  have h := c9_empty_start_no_mutation (initState defaultCfg) (some []) 500 rfl
  exact ⟨h.2.2.2.2.2.2, h.1⟩

theorem c10_restart_semantics_witness :
    (startQueue (some ["a"]) 500 (initState defaultCfg)).isRunning = true ∧
    (initState defaultCfg).activeCheckTimers ≤ 1 := by
  have h := c10_restart_semantics (initState defaultCfg) (initState defaultCfg)
    ["a"] 500 (by decide) (ReachableSched.init defaultCfg)
  exact ⟨h.2.2.1, h.2.2.2.2.2.2⟩

theorem c4_retry_policy_witness :
    (advanceQueue 0 (initState defaultCfg)).queueIndex =
      (initState defaultCfg).queueIndex + 1 ∧
    sendOutcome 0 false (maxRetries - 1) (initState defaultCfg) =
      advanceQueue 0 (initState defaultCfg) := by
  have h := c4_retry_policy (initState defaultCfg) (ReachableSched.init defaultCfg) 0 0
  exact ⟨h.2.2.2.2.1, h.2.2.2.1⟩
